import Mathlib

/-
Verification development for the dino-qube endless runner.

Shallow embedding of the simulation core found in src/components/GameCanvas.tsx
together with the constants module.  JavaScript numbers are modelled as
rationals (ℚ); `Math.random()` draws are modelled as oracle inputs supplied
through environment records, each draw constrained to the interval [0,1).
Hex colour strings are modelled as RGB triples (the string parse / pack in
`lerpColor` is a bijection onto such triples on the values that occur).
-/

namespace DinoQube

/-! ### Constants (from the constants module) -/

def CANVAS_WIDTH : ℚ := 800
def CANVAS_HEIGHT : ℚ := 400
def GROUND_Y : ℚ := 350
def GRAVITY : ℚ := 6/10
def JUMP_FORCE : ℚ := -12
def INITIAL_SPEED : ℚ := 6
def MAX_SPEED : ℚ := 15
def SPEED_INCREMENT : ℚ := 1/1000
def PLAYER_WIDTH : ℚ := 44
def PLAYER_HEIGHT : ℚ := 80
def PLAYER_START_X : ℚ := 50
def OBSTACLE_SPAWN_MIN_GAP : ℚ := 300
def OBSTACLE_SPAWN_MAX_GAP : ℚ := 700
def MAX_PARTICLES : ℕ := 60

/-- Hitbox inset used for the player box in the collision detector. -/
def hitboxPadding : ℚ := 8

/-! ### Data model (from src/types.ts and GameCanvas.tsx) -/

inductive GameStatus where
  | START
  | PLAYING
  | GAME_OVER
deriving DecidableEq

inductive ObstacleType where
  | BONSAI_SMALL
  | BONSAI_LARGE
  | BIRD
  | ROCK
  | TORII
deriving DecidableEq

/-- An RGB colour triple; models the hex colour strings of the source. -/
structure Color where
  r : ℤ
  g : ℤ
  b : ℤ
deriving DecidableEq

structure Player where
  x : ℚ
  y : ℚ
  vy : ℚ
  isJumping : Bool
  frame : ℚ
deriving DecidableEq

structure Obstacle where
  id : ℚ
  x : ℚ
  y : ℚ
  width : ℚ
  height : ℚ
  type : ObstacleType
deriving DecidableEq

structure Cloud where
  id : ℚ
  x : ℚ
  y : ℚ
  speed : ℚ
  scale : ℚ
deriving DecidableEq

structure Particle where
  id : ℕ
  x : ℚ
  y : ℚ
  vx : ℚ
  vy : ℚ
  life : ℚ
  decay : ℚ
  size : ℚ
  color : Color
  active : Bool
deriving DecidableEq

inductive PType where
  | dust
  | impact
deriving DecidableEq

/-- One bundle of `Math.random()` draws consumed when a particle slot is
activated (for vx, vy, decay and size respectively). -/
structure PRand where
  r1 : ℚ
  r2 : ℚ
  r3 : ℚ
  r4 : ℚ

/-- The `Math.random()` draws consumed by `spawnObstacle`. -/
structure ObsRand where
  r : ℚ
  scaleR : ℚ
  isHighR : ℚ
  xoffR : ℚ
  idR : ℚ

/-- The `Math.random()` draws consumed by `spawnCloud`. -/
structure CloudRand where
  yR : ℚ
  speedR : ℚ
  scaleR : ℚ
  idR : ℚ

/-- The whole game state held in the refs of GameCanvas.tsx
(stars are purely cosmetic and never read by the simulation, so they are
omitted; `cycleRef` is recomputed from `frameCount` each tick). -/
structure GameState where
  status : GameStatus
  player : Player
  obstacles : List Obstacle
  clouds : List Cloud
  particles : List Particle
  score : ℚ
  gameSpeed : ℚ
  frameCount : ℚ
deriving DecidableEq

/-! ### Particle pool operations (spawnParticles, lines 90-108) -/

/-- Mutation applied to an inactive slot that gets activated. -/
def activateParticle (p : Particle) (x y : ℚ) (ty : PType) (r : PRand) : Particle :=
  { p with
    active := true
    x := x
    y := y
    vx := (r.r1 - 1/2) * (if ty = PType.impact then 5 else 2)
    vy := (r.r2 - 1) * (if ty = PType.impact then 5 else 2)
    life := 1
    decay := 2/100 + r.r3 * (3/100)
    size := if ty = PType.impact then 3 + r.r4 * 3 else 2 + r.r4 * 2
    color := if ty = PType.impact then Color.mk 148 163 184 else Color.mk 203 213 225 }

/-- The scan of `spawnParticles`: walk the pool in order, activating inactive
slots until `remaining` activations have been performed.  `i` is the loop
index, used to address the oracle stream. -/
def spawnParticlesGo (rnd : ℕ → PRand) (x y : ℚ) (ty : PType) :
    ℕ → ℕ → List Particle → List Particle
  | _, _, [] => []
  | i, remaining, p :: ps =>
    if remaining = 0 then p :: ps
    else if p.active = true then p :: spawnParticlesGo rnd x y ty (i + 1) remaining ps
    else activateParticle p x y ty (rnd i) ::
      spawnParticlesGo rnd x y ty (i + 1) (remaining - 1) ps

def spawnParticles (rnd : ℕ → PRand) (pool : List Particle) (x y : ℚ)
    (count : ℕ) (ty : PType) : List Particle :=
  spawnParticlesGo rnd x y ty 0 count pool

/-! ### Spawner (spawnObstacle lines 110-166, spawnCloud lines 168-177) -/

def spawnObstacle (e : ObsRand) (score : ℚ) : Obstacle :=
  let canSpawnTorii := score > 300
  if canSpawnTorii ∧ e.r > 96/100 then
    { id := e.idR, x := CANVAS_WIDTH + e.xoffR * 100, y := GROUND_Y - 65,
      width := 50, height := 65, type := ObstacleType.TORII }
  else if score > 150 ∧ e.r > 82/100 then
    { id := e.idR, x := CANVAS_WIDTH + e.xoffR * 100,
      y := if e.isHighR > 1/2 then GROUND_Y - PLAYER_HEIGHT - 10 else GROUND_Y - 50,
      width := 40, height := 30, type := ObstacleType.BIRD }
  else if e.r > 88/100 then
    { id := e.idR, x := CANVAS_WIDTH + e.xoffR * 100, y := GROUND_Y - 25,
      width := 40, height := 25, type := ObstacleType.ROCK }
  else if e.r > 1/2 then
    let scale := 85/100 + e.scaleR * (4/10)
    { id := e.idR, x := CANVAS_WIDTH + e.xoffR * 100, y := GROUND_Y - 65 * scale,
      width := 45 * scale, height := 65 * scale, type := ObstacleType.BONSAI_LARGE }
  else
    let scale := 85/100 + e.scaleR * (4/10)
    { id := e.idR, x := CANVAS_WIDTH + e.xoffR * 100, y := GROUND_Y - 45 * scale,
      width := 35 * scale, height := 45 * scale, type := ObstacleType.BONSAI_SMALL }

def spawnCloud (e : CloudRand) : Cloud :=
  { id := e.idR, x := CANVAS_WIDTH, y := e.yR * (CANVAS_HEIGHT / 2),
    speed := 1/2 + e.speedR * 1, scale := 1/2 + e.scaleR * (8/10) }

/-! ### Reset and jump (resetGame lines 179-200, jump lines 202-215) -/

def initPlayer : Player :=
  { x := PLAYER_START_X, y := GROUND_Y - PLAYER_HEIGHT, vy := 0,
    isJumping := false, frame := 0 }

def initParticles : List Particle :=
  (List.range MAX_PARTICLES).map fun i =>
    { id := i, x := 0, y := 0, vx := 0, vy := 0, life := 0, decay := 0,
      size := 0, color := Color.mk 0 0 0, active := false }

def initState : GameState :=
  { status := GameStatus.START, player := initPlayer, obstacles := [],
    clouds := [], particles := initParticles, score := 0,
    gameSpeed := INITIAL_SPEED, frameCount := 0 }

def resetGame (s : GameState) : GameState :=
  { s with
    status := GameStatus.PLAYING
    score := 0
    gameSpeed := INITIAL_SPEED
    obstacles := []
    clouds := []
    particles := s.particles.map fun p => { p with active := false }
    player := initPlayer
    frameCount := 0 }

/-- The `jump` callback (the external triggerJump command). -/
def jump (rnd : ℕ → PRand) (s : GameState) : GameState :=
  if s.status ≠ GameStatus.PLAYING then
    if s.status = GameStatus.START ∨ s.status = GameStatus.GAME_OVER then
      resetGame s
    else s
  else if s.player.isJumping = false then
    { s with
      player := { s.player with vy := JUMP_FORCE, isJumping := true }
      particles := spawnParticles rnd s.particles
        (s.player.x + PLAYER_WIDTH / 2) (s.player.y + PLAYER_HEIGHT) 5 PType.dust }
  else s

/-! ### Physics and per-tick phases (update, lines 217-365) -/

def stepPhysics (dt : ℚ) (pl : Player) : Player :=
  { pl with vy := pl.vy + GRAVITY * dt, y := pl.y + (pl.vy + GRAVITY * dt) * dt }

/-- Ground collision block (lines 229-241); `pl` is the post-physics player,
whose `isJumping` flag is still the pre-tick one. -/
def groundResolve (landRnd runRnd : ℕ → PRand) (fc : ℚ) (pl : Player)
    (pool : List Particle) : Player × List Particle :=
  if pl.y ≥ GROUND_Y - PLAYER_HEIGHT then
    let pool1 :=
      if pl.isJumping = true then
        spawnParticles landRnd pool (pl.x + PLAYER_WIDTH / 2) GROUND_Y 8 PType.dust
      else pool
    let pool2 :=
      if ⌊fc⌋ % 8 = 0 then
        spawnParticles runRnd pool1 (pl.x + 10) GROUND_Y 2 PType.dust
      else pool1
    ({ pl with y := GROUND_Y - PLAYER_HEIGHT, vy := 0, isJumping := false }, pool2)
  else (pl, pool)

/-- Speed progression (lines 243-246): increment without an upper clamp. -/
def speedStep (dt sp : ℚ) : ℚ :=
  if sp < MAX_SPEED then sp + SPEED_INCREMENT * dt else sp

/-- Obstacle spawn decision (lines 254-258). -/
def obstacleSpawnPhase (e : ObsRand) (gapR score : ℚ) (obs : List Obstacle) :
    List Obstacle :=
  match obs.getLast? with
  | none => obs ++ [spawnObstacle e score]
  | some last =>
    if CANVAS_WIDTH - last.x > OBSTACLE_SPAWN_MIN_GAP + gapR * OBSTACLE_SPAWN_MAX_GAP then
      obs ++ [spawnObstacle e score]
    else obs

/-- Obstacle scroll and compaction (lines 260-273). -/
def moveObstacles (speed dt : ℚ) (obs : List Obstacle) : List Obstacle :=
  (obs.map fun o => { o with x := o.x - speed * dt }).filter
    fun o => decide (o.x + o.width > -100)

/-- Cloud spawn, scroll and compaction (lines 275-288). -/
def cloudPhase (cloudDraw : ℚ) (ce : CloudRand) (dt : ℚ) (clouds : List Cloud) :
    List Cloud :=
  let cl1 := if cloudDraw < 1/100 * dt then clouds ++ [spawnCloud ce] else clouds
  (cl1.map fun c => { c with x := c.x - c.speed * dt }).filter
    fun c => decide (c.x > -100)

/-- Particle kinematics and life decay (lines 290-302). -/
def tickParticle (speed dt : ℚ) (p : Particle) : Particle :=
  if p.active = true then
    let life1 := p.life - p.decay * dt
    { p with
      x := p.x - speed * dt + p.vx * dt
      y := p.y + p.vy * dt
      life := life1
      active := if life1 ≤ 0 then false else true }
  else p

/-! ### Collision detector (lines 304-364) -/

structure Box where
  x : ℚ
  y : ℚ
  w : ℚ
  h : ℚ
deriving DecidableEq

def playerHitbox (pl : Player) : Box :=
  { x := pl.x + hitboxPadding, y := pl.y + hitboxPadding,
    w := PLAYER_WIDTH - hitboxPadding * 2, h := PLAYER_HEIGHT - hitboxPadding * 2 }

def obsHitbox (o : Obstacle) : Box :=
  match o.type with
  | ObstacleType.BIRD =>
    { x := o.x + 2, y := o.y + 10, w := o.width - 4, h := o.height - 14 }
  | ObstacleType.ROCK =>
    { x := o.x + 2, y := o.y + 2, w := o.width - 4, h := o.height - 4 }
  | ObstacleType.TORII =>
    { x := o.x + 10, y := o.y + 2, w := o.width - 20, h := o.height - 4 }
  | _ =>
    { x := o.x + 4, y := o.y + 4, w := o.width - 8, h := o.height - 8 }

/-- The AABB test exactly as written in the if-condition, lines 345-350. -/
def overlaps (a b : Box) : Prop :=
  a.x < b.x + b.w ∧ a.x + a.w > b.x ∧ a.y < b.y + b.h ∧ a.y + a.h > b.y

instance (a b : Box) : Decidable (overlaps a b) := by
  unfold overlaps; infer_instance

/-- The collision loop: no early exit, so every overlapping obstacle fires
the game-over block.  Returns the final status, the particle pool after the
impact bursts, and the list of `onGameOver(finalScore)` emissions, in order.
`k` indexes the oracle stream for the impact bursts. -/
def collideGo (impactRnd : ℕ → ℕ → PRand) (pBox : Box) (pl : Player) (score : ℚ) :
    ℕ → GameStatus → List Particle → List ℤ → List Obstacle →
    GameStatus × List Particle × List ℤ
  | _, st, pool, ems, [] => (st, pool, ems)
  | k, st, pool, ems, o :: os =>
    if overlaps pBox (obsHitbox o) then
      collideGo impactRnd pBox pl score (k + 1) GameStatus.GAME_OVER
        (spawnParticles (impactRnd k) pool (pl.x + PLAYER_WIDTH / 2)
          (pl.y + PLAYER_HEIGHT / 2) 20 PType.impact)
        (ems ++ [⌊score⌋]) os
    else
      collideGo impactRnd pBox pl score (k + 1) st pool ems os

/-! ### The update tick (lines 217-365) -/

/-- Oracle environment for one `update` tick. -/
structure Env where
  gapR : ℚ
  obs : ObsRand
  cloudR : ℚ
  cloud : CloudRand
  landRnd : ℕ → PRand
  runRnd : ℕ → PRand
  impactRnd : ℕ → ℕ → PRand

/-- Every scalar `Math.random()` draw lies in [0,1). -/
def EnvOk (e : Env) : Prop :=
  0 ≤ e.gapR ∧ e.gapR < 1 ∧
  0 ≤ e.obs.r ∧ e.obs.r < 1 ∧
  0 ≤ e.obs.scaleR ∧ e.obs.scaleR < 1 ∧
  0 ≤ e.obs.isHighR ∧ e.obs.isHighR < 1 ∧
  0 ≤ e.obs.xoffR ∧ e.obs.xoffR < 1 ∧
  0 ≤ e.cloudR ∧ e.cloudR < 1 ∧
  0 ≤ e.cloud.yR ∧ e.cloud.yR < 1 ∧
  0 ≤ e.cloud.speedR ∧ e.cloud.speedR < 1 ∧
  0 ≤ e.cloud.scaleR ∧ e.cloud.scaleR < 1

instance (e : Env) : Decidable (EnvOk e) := by
  unfold EnvOk; infer_instance

/-- Frame counter advance (line 222). -/
def tickFc (dt : ℚ) (s : GameState) : ℚ :=
  s.frameCount + 1 * dt

/-- Physics plus ground resolution for the tick (lines 226-241). -/
def tickPG (env : Env) (dt : ℚ) (s : GameState) : Player × List Particle :=
  groundResolve env.landRnd env.runRnd (tickFc dt s) (stepPhysics dt s.player) s.particles

/-- Speed after the tick (lines 243-246). -/
def tickSpeed (dt : ℚ) (s : GameState) : ℚ :=
  speedStep dt s.gameSpeed

/-- Score after the tick (line 249); uses the already-updated speed. -/
def tickScore (dt : ℚ) (s : GameState) : ℚ :=
  s.score + 1/10 * (tickSpeed dt s / INITIAL_SPEED) * dt

/-- Obstacle list after spawn, scroll and compaction (lines 254-273). -/
def tickObs (env : Env) (dt : ℚ) (s : GameState) : List Obstacle :=
  moveObstacles (tickSpeed dt s) dt
    (obstacleSpawnPhase env.obs env.gapR (tickScore dt s) s.obstacles)

/-- Cloud list after the tick (lines 275-288). -/
def tickClouds (env : Env) (dt : ℚ) (s : GameState) : List Cloud :=
  cloudPhase env.cloudR env.cloud dt s.clouds

/-- Particle pool after kinematics/decay, before the collision phase. -/
def tickPool (env : Env) (dt : ℚ) (s : GameState) : List Particle :=
  (tickPG env dt s).2.map (tickParticle (tickSpeed dt s) dt)

/-- The collision-detection phase of the tick (lines 304-364). -/
def tickCol (env : Env) (dt : ℚ) (s : GameState) :
    GameStatus × List Particle × List ℤ :=
  collideGo env.impactRnd (playerHitbox (tickPG env dt s).1) (tickPG env dt s).1
    (tickScore dt s) 0 GameStatus.PLAYING (tickPool env dt s) [] (tickObs env dt s)

/-- One tick of `update(dt)`.  Returns the new state together with the list
of `onGameOver(finalScore)` notifications emitted during the tick. -/
def update (env : Env) (dt : ℚ) (s : GameState) : GameState × List ℤ :=
  if s.status = GameStatus.PLAYING then
    ({ s with
        status := (tickCol env dt s).1
        player := (tickPG env dt s).1
        obstacles := tickObs env dt s
        clouds := tickClouds env dt s
        particles := (tickCol env dt s).2.1
        score := tickScore dt s
        gameSpeed := tickSpeed dt s
        frameCount := tickFc dt s }, (tickCol env dt s).2.2)
  else (s, [])

/-! ### Day/night cycle (lerpColor lines 368-377, getSkyColor lines 379-385) -/

/-- JavaScript `| 0` (ToInt32) truncation toward zero, for the in-range
values produced by `lerpColor`. -/
def jsTrunc (q : ℚ) : ℤ :=
  if q < 0 then -⌊-q⌋ else ⌊q⌋

def lerpColor (a b : Color) (amount : ℚ) : Color :=
  { r := jsTrunc ((a.r : ℚ) + amount * ((b.r : ℚ) - (a.r : ℚ)))
    g := jsTrunc ((a.g : ℚ) + amount * ((b.g : ℚ) - (a.g : ℚ)))
    b := jsTrunc ((a.b : ℚ) + amount * ((b.b : ℚ) - (a.b : ℚ))) }

def dayColor : Color := Color.mk 56 189 248
def sunsetColor : Color := Color.mk 253 186 116
def nightColor : Color := Color.mk 15 23 42

def getSkyColor (t : ℚ) : Color :=
  if t < 3/10 then dayColor
  else if t < 4/10 then lerpColor dayColor sunsetColor ((t - 3/10) * 10)
  else if t < 5/10 then lerpColor sunsetColor nightColor ((t - 4/10) * 10)
  else if t < 9/10 then nightColor
  else lerpColor nightColor dayColor ((t - 9/10) * 10)

/-! ### Reachable states

The loop driver (lines 733-750) clamps `dt = min(elapsed/FRAME_TIME, 4)`,
so every executed tick has `0 ≤ dt ≤ 4`.  The only other mutation entry
point of the simulation is the `jump` command. -/

inductive Reachable : GameState → Prop where
  | init : Reachable initState
  | step_jump (s : GameState) (rnd : ℕ → PRand) :
      Reachable s → Reachable (jump rnd s)
  | step_update (s : GameState) (env : Env) (dt : ℚ) :
      Reachable s → EnvOk env → 0 ≤ dt → dt ≤ 4 →
      Reachable (update env dt s).1

/-! ### Projection lemmas for `update` -/

lemma update_not_playing (env : Env) (dt : ℚ) (s : GameState)
    (h : s.status ≠ GameStatus.PLAYING) : update env dt s = (s, []) := by
  simp [update, h]

lemma update_player (env : Env) (dt : ℚ) (s : GameState)
    (h : s.status = GameStatus.PLAYING) :
    (update env dt s).1.player = (tickPG env dt s).1 := by
  simp [update, h]

lemma update_obstacles (env : Env) (dt : ℚ) (s : GameState)
    (h : s.status = GameStatus.PLAYING) :
    (update env dt s).1.obstacles = tickObs env dt s := by
  simp [update, h]

lemma update_clouds (env : Env) (dt : ℚ) (s : GameState)
    (h : s.status = GameStatus.PLAYING) :
    (update env dt s).1.clouds = tickClouds env dt s := by
  simp [update, h]

lemma update_particles (env : Env) (dt : ℚ) (s : GameState)
    (h : s.status = GameStatus.PLAYING) :
    (update env dt s).1.particles = (tickCol env dt s).2.1 := by
  simp [update, h]

lemma update_gameSpeed (env : Env) (dt : ℚ) (s : GameState)
    (h : s.status = GameStatus.PLAYING) :
    (update env dt s).1.gameSpeed = tickSpeed dt s := by
  simp [update, h]

lemma update_status (env : Env) (dt : ℚ) (s : GameState)
    (h : s.status = GameStatus.PLAYING) :
    (update env dt s).1.status = (tickCol env dt s).1 := by
  simp [update, h]

lemma update_ems (env : Env) (dt : ℚ) (s : GameState)
    (h : s.status = GameStatus.PLAYING) :
    (update env dt s).2 = (tickCol env dt s).2.2 := by
  simp [update, h]

/-! ### Particle pool lemmas -/

lemma spawnParticlesGo_length (rnd : ℕ → PRand) (x y : ℚ) (ty : PType) :
    ∀ (pool : List Particle) (i rem : ℕ),
      (spawnParticlesGo rnd x y ty i rem pool).length = pool.length := by
  intro pool
  induction pool with
  | nil => intro i rem; simp [spawnParticlesGo]
  | cons p ps ih =>
    intro i rem
    simp only [spawnParticlesGo]
    split
    · rfl
    · split <;> simp [ih]

lemma spawnParticles_length (rnd : ℕ → PRand) (pool : List Particle) (x y : ℚ)
    (count : ℕ) (ty : PType) :
    (spawnParticles rnd pool x y count ty).length = pool.length :=
  spawnParticlesGo_length rnd x y ty pool 0 count

/-- Slots that are already active are left untouched by a spawn call. -/
lemma spawnParticlesGo_active_slots (rnd : ℕ → PRand) (x y : ℚ) (ty : PType) :
    ∀ (pool : List Particle) (i rem j : ℕ) (p : Particle),
      pool.get? j = some p → p.active = true →
      (spawnParticlesGo rnd x y ty i rem pool).get? j = some p := by
  intro pool
  induction pool with
  | nil => intro i rem j p hj _; simp at hj
  | cons q ps ih =>
    intro i rem j p hj hp
    simp only [spawnParticlesGo]
    split
    · exact hj
    · cases j with
      | zero =>
        simp only [List.get?] at hj
        cases hj
        split
        · simp
        · rename_i hqa
          exact absurd hp hqa
      | succ j =>
        simp only [List.get?] at hj
        split <;> simpa using ih (i + 1) _ j p hj hp

/-! ### Collision loop lemmas -/

lemma collideGo_pool_length (irnd : ℕ → ℕ → PRand) (b : Box) (pl : Player) (sc : ℚ) :
    ∀ (obs : List Obstacle) (k : ℕ) (st : GameStatus) (pool : List Particle)
      (ems : List ℤ),
      (collideGo irnd b pl sc k st pool ems obs).2.1.length = pool.length := by
  intro obs
  induction obs with
  | nil => intro k st pool ems; rfl
  | cons o os ih =>
    intro k st pool ems
    simp only [collideGo]
    split
    · rw [ih, spawnParticles_length]
    · exact ih ..

lemma collideGo_ems_length (irnd : ℕ → ℕ → PRand) (b : Box) (pl : Player) (sc : ℚ) :
    ∀ (obs : List Obstacle) (k : ℕ) (st : GameStatus) (pool : List Particle)
      (ems : List ℤ),
      (collideGo irnd b pl sc k st pool ems obs).2.2.length =
        ems.length + obs.countP (fun o => decide (overlaps b (obsHitbox o))) := by
  intro obs
  induction obs with
  | nil => intro k st pool ems; simp [collideGo]
  | cons o os ih =>
    intro k st pool ems
    simp only [collideGo]
    split
    · rename_i hov
      rw [ih, List.countP_cons_of_pos _ _ (by simpa using hov)]
      simp
      omega
    · rename_i hov
      rw [ih, List.countP_cons_of_neg]
      simpa using hov

lemma collideGo_status (irnd : ℕ → ℕ → PRand) (b : Box) (pl : Player) (sc : ℚ) :
    ∀ (obs : List Obstacle) (k : ℕ) (st : GameStatus) (pool : List Particle)
      (ems : List ℤ),
      (collideGo irnd b pl sc k st pool ems obs).1 =
        if obs.countP (fun o => decide (overlaps b (obsHitbox o))) = 0 then st
        else GameStatus.GAME_OVER := by
  intro obs
  induction obs with
  | nil => intro k st pool ems; simp [collideGo]
  | cons o os ih =>
    intro k st pool ems
    simp only [collideGo]
    split
    · rename_i hov
      rw [ih, List.countP_cons_of_pos _ _ (by simpa using hov)]
      simp
    · rename_i hov
      rw [ih, List.countP_cons_of_neg]
      simpa using hov

/-! ### Spawner lemmas -/

lemma spawnObstacle_x (e : ObsRand) (sc : ℚ) :
    (spawnObstacle e sc).x = CANVAS_WIDTH + e.xoffR * 100 := by
  simp only [spawnObstacle]
  split_ifs <;> rfl

lemma spawnObstacle_width (e : ObsRand) (sc : ℚ) (h0 : 0 ≤ e.scaleR)
    (h1 : e.scaleR < 1) : (spawnObstacle e sc).width ≤ 60 := by
  simp only [spawnObstacle]
  split_ifs <;> simp only <;> nlinarith

/-- The spacing relation maintained between consecutive obstacles. -/
def gapOk (a b : Obstacle) : Prop :=
  a.x + OBSTACLE_SPAWN_MIN_GAP < b.x

instance : IsTrans Obstacle gapOk where
  trans a b c hab hbc := by
    unfold gapOk OBSTACLE_SPAWN_MIN_GAP at *
    linarith

lemma chain_obstacleSpawnPhase (e : ObsRand) (gapR sc : ℚ) (obs : List Obstacle)
    (hchain : List.Chain' gapOk obs) (hg : 0 ≤ gapR) (hx : 0 ≤ e.xoffR) :
    List.Chain' gapOk (obstacleSpawnPhase e gapR sc obs) := by
  unfold obstacleSpawnPhase
  cases hlast : obs.getLast? with
  | none =>
    have : obs = [] := List.getLast?_eq_none_iff.mp hlast
    subst this
    simp
  | some last =>
    dsimp only
    split_ifs with hguard
    · rw [List.chain'_append]
      refine ⟨hchain, List.chain'_singleton _, ?_⟩
      intro a ha b hb
      rw [hlast] at ha
      simp at ha hb
      subst ha
      subst hb
      unfold gapOk
      rw [spawnObstacle_x]
      unfold CANVAS_WIDTH OBSTACLE_SPAWN_MIN_GAP OBSTACLE_SPAWN_MAX_GAP at *
      nlinarith
    · exact hchain

lemma width_obstacleSpawnPhase (e : ObsRand) (gapR sc : ℚ) (obs : List Obstacle)
    (hw : ∀ o ∈ obs, o.width ≤ 60) (h0 : 0 ≤ e.scaleR) (h1 : e.scaleR < 1) :
    ∀ o ∈ obstacleSpawnPhase e gapR sc obs, o.width ≤ 60 := by
  unfold obstacleSpawnPhase
  have hnew := spawnObstacle_width e sc h0 h1
  cases obs.getLast? with
  | none =>
    intro o ho
    rcases List.mem_append.mp ho with h | h
    · exact hw o h
    · simp at h; subst h; exact hnew
  | some last =>
    dsimp only
    split_ifs
    · intro o ho
      rcases List.mem_append.mp ho with h | h
      · exact hw o h
      · simp at h; subst h; exact hnew
    · exact hw

lemma chain_moveObstacles (speed dt : ℚ) (obs : List Obstacle)
    (hchain : List.Chain' gapOk obs) :
    List.Chain' gapOk (moveObstacles speed dt obs) := by
  unfold moveObstacles
  have hmap : List.Chain' gapOk (obs.map fun o => { o with x := o.x - speed * dt }) := by
    apply List.chain'_map_of_chain' _ _ hchain
    intro a b hab
    unfold gapOk at *
    simp only
    linarith
  exact hmap.sublist (List.filter_sublist _)

lemma width_moveObstacles (speed dt : ℚ) (obs : List Obstacle)
    (hw : ∀ o ∈ obs, o.width ≤ 60) :
    ∀ o ∈ moveObstacles speed dt obs, o.width ≤ 60 := by
  unfold moveObstacles
  intro o ho
  have ho2 := List.mem_of_mem_filter ho
  obtain ⟨o0, ho0, rfl⟩ := List.mem_map.mp ho2
  exact hw o0 ho0

/-! ### At most one obstacle can overlap the player -/

lemma overlaps_x_window (pl : Player) (o : Obstacle)
    (hx : pl.x = PLAYER_START_X) (hw : o.width ≤ 60)
    (h : overlaps (playerHitbox pl) (obsHitbox o)) : 0 < o.x ∧ o.x < 84 := by
  obtain ⟨h1, h2, _, _⟩ := h
  have hx50 : pl.x = (50 : ℚ) := hx
  cases hty : o.type <;>
    simp only [playerHitbox, obsHitbox, hty, hitboxPadding, PLAYER_WIDTH] at h1 h2 <;>
    exact ⟨by linarith, by linarith⟩

lemma countOverlaps_le_one_aux (pl : Player) (hx : pl.x = PLAYER_START_X) :
    ∀ (obs : List Obstacle), List.Pairwise gapOk obs →
      (∀ o ∈ obs, o.width ≤ 60) →
      obs.countP (fun o => decide (overlaps (playerHitbox pl) (obsHitbox o))) ≤ 1 := by
  intro obs
  induction obs with
  | nil => intro _ _; simp
  | cons a os ih =>
    intro hp hw
    rw [List.pairwise_cons] at hp
    obtain ⟨ha, hos⟩ := hp
    by_cases hov : overlaps (playerHitbox pl) (obsHitbox a)
    · rw [List.countP_cons_of_pos _ _ (by simpa using hov)]
      have hzero : os.countP
          (fun o => decide (overlaps (playerHitbox pl) (obsHitbox o))) = 0 := by
        rw [List.countP_eq_zero]
        intro b hb hovb
        have hovb' : overlaps (playerHitbox pl) (obsHitbox b) := by simpa using hovb
        have hbw := overlaps_x_window pl b hx (hw b (List.mem_cons_of_mem a hb)) hovb'
        have haw := overlaps_x_window pl a hx (hw a (List.mem_cons_self a os)) hov
        have hgap := ha b hb
        unfold gapOk OBSTACLE_SPAWN_MIN_GAP at hgap
        linarith [haw.1, hbw.2]
      omega
    · rw [List.countP_cons_of_neg _ _ (by simpa using hov)]
      exact ih hos fun o ho => hw o (List.mem_cons_of_mem a ho)

lemma countOverlaps_le_one (pl : Player) (obs : List Obstacle)
    (hx : pl.x = PLAYER_START_X) (hchain : List.Chain' gapOk obs)
    (hw : ∀ o ∈ obs, o.width ≤ 60) :
    obs.countP (fun o => decide (overlaps (playerHitbox pl) (obsHitbox o))) ≤ 1 :=
  countOverlaps_le_one_aux pl hx obs (List.chain'_iff_pairwise.mp hchain) hw

/-! ### Ground resolution and speed lemmas -/

lemma groundResolve_fst (l r : ℕ → PRand) (fc : ℚ) (pl : Player)
    (pool : List Particle) :
    (groundResolve l r fc pl pool).1 =
      if pl.y ≥ GROUND_Y - PLAYER_HEIGHT then
        { pl with y := GROUND_Y - PLAYER_HEIGHT, vy := 0, isJumping := false }
      else pl := by
  unfold groundResolve
  split <;> rfl

lemma groundResolve_snd_length (l r : ℕ → PRand) (fc : ℚ) (pl : Player)
    (pool : List Particle) :
    (groundResolve l r fc pl pool).2.length = pool.length := by
  unfold groundResolve
  split
  · simp only
    split_ifs <;> simp [spawnParticles_length]
  · rfl

lemma speedStep_mono (dt sp : ℚ) (h : 0 ≤ dt) : sp ≤ speedStep dt sp := by
  unfold speedStep SPEED_INCREMENT
  split_ifs <;> nlinarith

lemma speedStep_lower (dt sp : ℚ) (h : 0 ≤ dt) (hsp : INITIAL_SPEED ≤ sp) :
    INITIAL_SPEED ≤ speedStep dt sp :=
  le_trans hsp (speedStep_mono dt sp h)

lemma speedStep_upper (dt sp : ℚ) (h4 : dt ≤ 4)
    (hsp : sp < MAX_SPEED + SPEED_INCREMENT * 4) :
    speedStep dt sp < MAX_SPEED + SPEED_INCREMENT * 4 := by
  unfold speedStep
  split_ifs with hlt
  · unfold MAX_SPEED SPEED_INCREMENT at *
    nlinarith
  · exact hsp

lemma tickPG_fst (env : Env) (dt : ℚ) (s : GameState) :
    (tickPG env dt s).1 =
      if (stepPhysics dt s.player).y ≥ GROUND_Y - PLAYER_HEIGHT then
        { stepPhysics dt s.player with
          y := GROUND_Y - PLAYER_HEIGHT, vy := 0, isJumping := false }
      else stepPhysics dt s.player := by
  unfold tickPG
  exact groundResolve_fst ..

/-! ### The reachable-state invariant -/

structure Inv (s : GameState) : Prop where
  px : s.player.x = PLAYER_START_X
  py : s.player.y ≤ GROUND_Y - PLAYER_HEIGHT
  grounded : s.player.isJumping = false →
    s.player.y = GROUND_Y - PLAYER_HEIGHT ∧ s.player.vy = 0
  fresh : s.player.isJumping = true → s.player.y = GROUND_Y - PLAYER_HEIGHT →
    s.player.vy = JUMP_FORCE
  chain : List.Chain' gapOk s.obstacles
  widths : ∀ o ∈ s.obstacles, o.width ≤ 60
  plen : s.particles.length = MAX_PARTICLES
  sLo : INITIAL_SPEED ≤ s.gameSpeed
  sHi : s.gameSpeed < MAX_SPEED + SPEED_INCREMENT * 4

lemma inv_init : Inv initState := by
  refine ⟨rfl, le_refl _, fun _ => ⟨rfl, rfl⟩, fun h _ => ?_,
    by simp [initState], by simp [initState],
    by simp [initState, initParticles], le_refl _,
    by norm_num [initState, MAX_SPEED, SPEED_INCREMENT, INITIAL_SPEED]⟩
  simp [initState, initPlayer] at h

lemma inv_resetGame (s : GameState) (h : Inv s) : Inv (resetGame s) := by
  refine ⟨rfl, le_refl _, fun _ => ⟨rfl, rfl⟩, fun hj _ => ?_,
    by simp [resetGame], by simp [resetGame],
    by simp [resetGame, h.plen], le_refl _,
    by norm_num [resetGame, MAX_SPEED, SPEED_INCREMENT, INITIAL_SPEED]⟩
  simp [resetGame, initPlayer] at hj

lemma jump_reset (rnd : ℕ → PRand) (s : GameState)
    (h : s.status = GameStatus.START ∨ s.status = GameStatus.GAME_OVER) :
    jump rnd s = resetGame s := by
  rcases h with h | h <;> simp [jump, h]

lemma jump_grounded_eq (rnd : ℕ → PRand) (s : GameState)
    (hst : s.status = GameStatus.PLAYING) (hj : s.player.isJumping = false) :
    jump rnd s =
      { s with
        player := { s.player with vy := JUMP_FORCE, isJumping := true }
        particles := spawnParticles rnd s.particles
          (s.player.x + PLAYER_WIDTH / 2) (s.player.y + PLAYER_HEIGHT) 5
          PType.dust } := by
  simp [jump, hst, hj]

lemma jump_airborne_eq (rnd : ℕ → PRand) (s : GameState)
    (hst : s.status = GameStatus.PLAYING) (hj : s.player.isJumping = true) :
    jump rnd s = s := by
  simp [jump, hst, hj]

lemma inv_jump (rnd : ℕ → PRand) (s : GameState) (h : Inv s) :
    Inv (jump rnd s) := by
  by_cases hst : s.status = GameStatus.PLAYING
  · by_cases hj : s.player.isJumping = false
    · rw [jump_grounded_eq rnd s hst hj]
      refine ⟨h.px, h.py, fun hj2 => ?_, fun _ _ => rfl, h.chain, h.widths,
        by simpa [spawnParticles_length] using h.plen, h.sLo, h.sHi⟩
      simp at hj2
    · rw [jump_airborne_eq rnd s hst (by simpa using hj)]
      exact h
  · by_cases hsg : s.status = GameStatus.START ∨ s.status = GameStatus.GAME_OVER
    · rw [jump_reset rnd s hsg]
      exact inv_resetGame s h
    · have : jump rnd s = s := by
        simp [jump, hst, hsg]
      rw [this]
      exact h

lemma inv_update (env : Env) (dt : ℚ) (s : GameState) (h : Inv s)
    (he : EnvOk env) (h0 : 0 ≤ dt) (h4 : dt ≤ 4) :
    Inv (update env dt s).1 := by
  by_cases hst : s.status = GameStatus.PLAYING
  case neg =>
    rw [update_not_playing env dt s hst]
    exact h
  obtain ⟨hg0, _, _, _, hs0, hs1, _, _, hx0, _, _⟩ := he
  have hp := update_player env dt s hst
  have hobs := update_obstacles env dt s hst
  have hpart := update_particles env dt s hst
  have hsp := update_gameSpeed env dt s hst
  have hphys_y : (stepPhysics dt s.player).y =
      s.player.y + (s.player.vy + GRAVITY * dt) * dt := rfl
  have hchain2 : List.Chain' gapOk (tickObs env dt s) := by
    unfold tickObs
    exact chain_moveObstacles _ _ _
      (chain_obstacleSpawnPhase _ _ _ _ h.chain hg0 hx0)
  have hwidth2 : ∀ o ∈ tickObs env dt s, o.width ≤ 60 := by
    unfold tickObs
    exact width_moveObstacles _ _ _
      (width_obstacleSpawnPhase _ _ _ _ h.widths hs0 hs1)
  refine ⟨?_, ?_, ?_, ?_, ?_, ?_, ?_, ?_, ?_⟩
  · rw [hp, tickPG_fst]
    split_ifs <;> simpa [stepPhysics] using h.px
  · rw [hp, tickPG_fst]
    split_ifs with hgr
    · exact le_refl _
    · simp only [not_le] at hgr
      exact le_of_lt hgr
  · rw [hp, tickPG_fst]
    split_ifs with hgr
    · exact fun _ => ⟨rfl, rfl⟩
    · intro hj
      have hj0 : s.player.isJumping = false := hj
      obtain ⟨hy, hv⟩ := h.grounded hj0
      exfalso
      apply hgr
      rw [hphys_y, hy, hv]
      unfold GRAVITY
      nlinarith
  · rw [hp, tickPG_fst]
    split_ifs with hgr
    · intro hj
      simp at hj
    · intro _ hy
      exfalso
      rw [hphys_y] at hgr hy
      exact hgr (le_of_eq hy.symm)
  · rw [hobs]
    exact hchain2
  · rw [hobs]
    exact hwidth2
  · rw [hpart]
    unfold tickCol
    rw [collideGo_pool_length]
    unfold tickPool
    rw [List.length_map]
    unfold tickPG
    rw [groundResolve_snd_length]
    exact h.plen
  · rw [hsp]
    exact speedStep_lower dt s.gameSpeed h0 h.sLo
  · rw [hsp]
    exact speedStep_upper dt s.gameSpeed h4 h.sHi

theorem reachable_inv {s : GameState} (h : Reachable s) : Inv s := by
  induction h with
  | init => exact inv_init
  | step_jump s rnd _ ih => exact inv_jump rnd s ih
  | step_update s env dt _ he h0 h4 ih => exact inv_update env dt s ih he h0 h4

/-! ### Concrete fixtures used by the claim theorems -/

def rnd0 : ℕ → PRand := fun _ => { r1 := 1/2, r2 := 1/2, r3 := 1/2, r4 := 1/2 }

def irnd0 : ℕ → ℕ → PRand := fun _ _ => { r1 := 1/2, r2 := 1/2, r3 := 1/2, r4 := 1/2 }

def env0 : Env :=
  { gapR := 9/10
    obs := { r := 0, scaleR := 0, isHighR := 0, xoffR := 0, idR := 0 }
    cloudR := 1/2
    cloud := { yR := 0, speedR := 0, scaleR := 0, idR := 0 }
    landRnd := rnd0, runRnd := rnd0, impactRnd := irnd0 }

/-- A reachable PLAYING state: the start screen after one jump command. -/
def playState0 : GameState := jump rnd0 initState

lemma playState0_reachable : Reachable playState0 :=
  Reachable.step_jump initState rnd0 Reachable.init

/-- An obstacle whose inset hitbox is the box [60,300]-[90,346] of the spec. -/
def c6Obs : Obstacle :=
  { id := 0, x := 56, y := 296, width := 38, height := 54,
    type := ObstacleType.BONSAI_SMALL }

/-- A PLAYING state whose two obstacles both overlap the player. -/
def c1State : GameState :=
  { status := GameStatus.PLAYING, player := initPlayer,
    obstacles := [c6Obs, { c6Obs with x := 60 }], clouds := [],
    particles := initParticles, score := 25/2, gameSpeed := INITIAL_SPEED,
    frameCount := 1 }

/-- A PLAYING state whose speed sits just below MAX_SPEED. -/
def c2State : GameState :=
  { status := GameStatus.PLAYING, player := initPlayer, obstacles := [],
    clouds := [], particles := initParticles, score := 0,
    gameSpeed := 29997/2000, frameCount := 1 }

/-- An inactive filler particle used as a lookup default. -/
def pDefault : Particle :=
  { id := 0, x := 0, y := 0, vx := 0, vy := 0, life := 0, decay := 0,
    size := 0, color := Color.mk 0 0 0, active := false }

/-- A live particle already far off the left edge of the field. -/
def strayP : Particle :=
  { id := 0, x := -200, y := 0, vx := 0, vy := 0, life := 1/2, decay := 2/100,
    size := 3, color := Color.mk 0 0 0, active := true }

/-- A PLAYING state whose particle slot 0 holds the stray live particle. -/
def c4State : GameState :=
  { status := GameStatus.PLAYING, player := initPlayer, obstacles := [],
    clouds := [], particles := initParticles.set 0 strayP, score := 0,
    gameSpeed := INITIAL_SPEED, frameCount := 1 }

def c4s1 : GameState := (update env0 1 c4State).1

/-- The state right after a grounded jump command while PLAYING. -/
def c5s : GameState := jump rnd0 (jump rnd0 initState)

/-- Number of live slots in a particle pool. -/
def activeCount (pool : List Particle) : ℕ :=
  (pool.filter fun p => p.active).length

/-- Strict overlap of the half-open interval pair, following the spec words
for one axis: the boxes overlap on an axis iff the open intervals meet. -/
def intervalsOverlapStrict (a w b w2 : ℚ) : Prop :=
  max a b < min (a + w) (b + w2)

/-- Direct AABB intersection following the spec words: boxes intersect iff
they overlap on both axes strictly. -/
def aabbIntersectSpec (p q : Box) : Prop :=
  intervalsOverlapStrict p.x p.w q.x q.w ∧ intervalsOverlapStrict p.y p.h q.y q.h

/-! ### Claim theorems -/

/-- C3: for any sequence of spawnParticles calls interleaved with ticks and
resets, the number of active particles never exceeds MAX_PARTICLES (60);
spawning activates only currently inactive slots of the fixed pool and
never grows the collection. -/
theorem C3_particle_pool_bounded :
    (∀ (rnd : ℕ → PRand) (pool : List Particle) (x y : ℚ) (count : ℕ)
        (ty : PType),
      (spawnParticles rnd pool x y count ty).length = pool.length) ∧
    (∀ (rnd : ℕ → PRand) (pool : List Particle) (x y : ℚ) (count : ℕ)
        (ty : PType) (j : ℕ) (p : Particle),
      pool.get? j = some p → p.active = true →
      (spawnParticles rnd pool x y count ty).get? j = some p) ∧
    (∀ s : GameState, Reachable s →
      s.particles.length = MAX_PARTICLES ∧
      activeCount s.particles ≤ MAX_PARTICLES) := by
  refine ⟨spawnParticles_length, ?_, ?_⟩
  · intro rnd pool x y count ty j p hj hp
    exact spawnParticlesGo_active_slots rnd x y ty pool 0 count j p hj hp
  · intro s hs
    have hlen := (reachable_inv hs).plen
    exact ⟨hlen, le_trans (List.length_filter_le _ _) (le_of_eq hlen)⟩

/-- C3 witness: the pool bound evaluated in the initial state. -/
theorem C3_witness :
    initState.particles.length = MAX_PARTICLES ∧
    activeCount initState.particles ≤ MAX_PARTICLES :=
  C3_particle_pool_bounded.2.2 initState Reachable.init

/-- C2 counterexample: a PLAYING tick with `dt = 7/2 ∈ [0,4]` starting from a
speed inside [INITIAL_SPEED, MAX_SPEED] ends with the speed strictly above
MAX_SPEED — the code has no `min` clamp. -/
theorem C2_counterexample :
    c2State.status = GameStatus.PLAYING ∧
    INITIAL_SPEED ≤ c2State.gameSpeed ∧
    c2State.gameSpeed ≤ MAX_SPEED ∧
    (0 : ℚ) ≤ 7/2 ∧
    MAX_SPEED < (update env0 (7/2) c2State).1.gameSpeed := by
  refine ⟨rfl, by norm_num [c2State, INITIAL_SPEED],
    by norm_num [c2State, MAX_SPEED], by norm_num, ?_⟩
  rw [update_gameSpeed env0 (7/2) c2State rfl]
  norm_num [tickSpeed, speedStep, c2State, MAX_SPEED, SPEED_INCREMENT]

/-- C2 amended: while PLAYING with dt ≥ 0 the speed is monotone
non-decreasing, and on reachable states it stays in the interval
[INITIAL_SPEED, MAX_SPEED + SPEED_INCREMENT * 4): the tick that crosses
MAX_SPEED may overshoot it by up to SPEED_INCREMENT * dt (dt ≤ 4), after
which the speed never increases again. -/
theorem C2_speed_monotone_bounded :
    (∀ (env : Env) (dt : ℚ) (s : GameState), s.status = GameStatus.PLAYING →
      0 ≤ dt → s.gameSpeed ≤ (update env dt s).1.gameSpeed) ∧
    (∀ s : GameState, Reachable s →
      INITIAL_SPEED ≤ s.gameSpeed ∧
      s.gameSpeed < MAX_SPEED + SPEED_INCREMENT * 4) := by
  constructor
  · intro env dt s hst h0
    rw [update_gameSpeed env dt s hst]
    unfold tickSpeed
    exact speedStep_mono dt s.gameSpeed h0
  · intro s hs
    exact ⟨(reachable_inv hs).sLo, (reachable_inv hs).sHi⟩

/-- C2 witness: monotonicity evaluated on a concrete reachable tick. -/
theorem C2_witness :
    playState0.gameSpeed ≤ (update env0 1 playState0).1.gameSpeed :=
  C2_speed_monotone_bounded.1 env0 1 playState0 (by decide) (by norm_num)

/-- C6: the collision decision equals a direct AABB intersection test on the
inset boxes (for genuine boxes of positive extent); the obstacle with inset
box [60,300]-[90,346] collides with the player at its start position on the
ground, and the same obstacle shifted to x = 200 does not. -/
theorem C6_collision_matches_aabb :
    (∀ (pl : Player) (o : Obstacle),
      0 < (obsHitbox o).w → 0 < (obsHitbox o).h →
      (overlaps (playerHitbox pl) (obsHitbox o) ↔
        aabbIntersectSpec (playerHitbox pl) (obsHitbox o))) ∧
    obsHitbox c6Obs = Box.mk 60 300 30 46 ∧
    overlaps (playerHitbox initPlayer) (obsHitbox c6Obs) ∧
    ¬ overlaps (playerHitbox initPlayer) (obsHitbox { c6Obs with x := 200 }) := by
  refine ⟨?_, by with_unfolding_all decide, by with_unfolding_all decide,
    by with_unfolding_all decide⟩
  intro pl o hw0 hh0
  unfold overlaps aabbIntersectSpec intervalsOverlapStrict
  simp only [max_lt_iff, lt_min_iff, playerHitbox, hitboxPadding,
    PLAYER_WIDTH, PLAYER_HEIGHT]
  constructor
  · rintro ⟨h1, h2, h3, h4⟩
    refine ⟨⟨⟨?_, ?_⟩, ?_, ?_⟩, ⟨?_, ?_⟩, ?_, ?_⟩ <;> linarith
  · rintro ⟨⟨⟨ha, hb⟩, hc, hd⟩, ⟨he1, hf⟩, hg2, hh2⟩
    exact ⟨by linarith, by linarith, by linarith, by linarith⟩

/-- C6 witness: the refinement direction evaluated at the concrete pair. -/
theorem C6_witness :
    aabbIntersectSpec (playerHitbox initPlayer) (obsHitbox c6Obs) :=
  (C6_collision_matches_aabb.1 initPlayer c6Obs (by with_unfolding_all decide)
    (by with_unfolding_all decide)).mp C6_collision_matches_aabb.2.2.1

/-- C1 counterexample: in a PLAYING tick whose state has two obstacles whose
inset boxes both overlap the player's, the collision loop (which has no
early exit) invokes onGameOver twice during the single PLAYING to GAME_OVER
transition, and keeps mutating state after the first hit (a second impact
burst of 20 particles is spawned, for 40 in total). -/
theorem C1_counterexample :
    c1State.status = GameStatus.PLAYING ∧
    (update env0 0 c1State).1.status = GameStatus.GAME_OVER ∧
    (update env0 0 c1State).2 = [12, 12] ∧
    (update env0 0 c1State).2.length = 2 ∧
    activeCount c1State.particles = 0 ∧
    activeCount (update env0 0 c1State).1.particles = 40 := by
  refine ⟨rfl, ?_, ?_, ?_, ?_, ?_⟩ <;> with_unfolding_all decide

/-- C1 amended: the collision loop emits one onGameOver call per overlapping
obstacle.  In every reachable PLAYING state at most one obstacle can overlap
the player (consecutive obstacles are more than OBSTACLE_SPAWN_MIN_GAP
apart while every obstacle is at most 60 wide), so on reachable states
onGameOver is invoked exactly once per PLAYING to GAME_OVER transition and
not at all on ticks that stay PLAYING. -/
theorem C1_amended_once_per_transition :
    ∀ (s : GameState) (env : Env) (dt : ℚ), Reachable s →
      s.status = GameStatus.PLAYING → EnvOk env → 0 ≤ dt → dt ≤ 4 →
      ((update env dt s).1.status = GameStatus.GAME_OVER →
        (update env dt s).2.length = 1) ∧
      ((update env dt s).1.status = GameStatus.PLAYING →
        (update env dt s).2 = []) := by
  intro s env dt hr hst he h0 h4
  have hr2 : Reachable (update env dt s).1 :=
    Reachable.step_update s env dt hr he h0 h4
  have hinv2 := reachable_inv hr2
  have hobs := update_obstacles env dt s hst
  have hp := update_player env dt s hst
  have hchain : List.Chain' gapOk (tickObs env dt s) := by
    rw [← hobs]; exact hinv2.chain
  have hwid : ∀ o ∈ tickObs env dt s, o.width ≤ 60 := by
    rw [← hobs]; exact hinv2.widths
  have hpx : (tickPG env dt s).1.x = PLAYER_START_X := by
    rw [← hp]; exact hinv2.px
  have hcount := countOverlaps_le_one (tickPG env dt s).1 (tickObs env dt s)
    hpx hchain hwid
  have hems : (update env dt s).2.length =
      (tickObs env dt s).countP
        (fun o => decide (overlaps (playerHitbox (tickPG env dt s).1)
          (obsHitbox o))) := by
    rw [update_ems env dt s hst]
    unfold tickCol
    rw [collideGo_ems_length]
    simp
  have hstat : (update env dt s).1.status =
      if (tickObs env dt s).countP
          (fun o => decide (overlaps (playerHitbox (tickPG env dt s).1)
            (obsHitbox o))) = 0
      then GameStatus.PLAYING else GameStatus.GAME_OVER := by
    rw [update_status env dt s hst]
    unfold tickCol
    rw [collideGo_status]
  constructor
  · intro hgo
    rw [hstat] at hgo
    by_cases hz : (tickObs env dt s).countP
        (fun o => decide (overlaps (playerHitbox (tickPG env dt s).1)
          (obsHitbox o))) = 0
    · rw [if_pos hz] at hgo
      exact absurd hgo (by decide)
    · rw [hems]
      omega
  · intro hpl
    rw [hstat] at hpl
    by_cases hz : (tickObs env dt s).countP
        (fun o => decide (overlaps (playerHitbox (tickPG env dt s).1)
          (obsHitbox o))) = 0
    · have hlen : (update env dt s).2.length = 0 := by rw [hems, hz]
      exact List.length_eq_zero.mp hlen
    · rw [if_neg hz] at hpl
      exact absurd hpl (by decide)

/-- C1 witness: the amended statement evaluated on a concrete reachable
PLAYING tick. -/
theorem C1_witness :
    ((update env0 1 playState0).1.status = GameStatus.GAME_OVER →
      (update env0 1 playState0).2.length = 1) ∧
    ((update env0 1 playState0).1.status = GameStatus.PLAYING →
      (update env0 1 playState0).2 = []) :=
  C1_amended_once_per_transition playState0 env0 1 playState0_reachable
    (by with_unfolding_all decide) (by with_unfolding_all decide)
    (by norm_num) (by norm_num)

/-- C4 counterexample: after one PLAYING tick the particle in slot 0 lies
fully left of the visible field (x + size < -100) yet it is still active on
the next tick, because particles are never culled by position. -/
theorem C4_counterexample :
    (c4s1.particles.getD 0 pDefault).x +
        (c4s1.particles.getD 0 pDefault).size < -100 ∧
    (c4s1.particles.getD 0 pDefault).active = true ∧
    ((update env0 1 c4s1).1.particles.getD 0 pDefault).active = true := by
  refine ⟨?_, ?_, ?_⟩ <;> with_unfolding_all decide

/-- C4 amended: on every PLAYING tick, every obstacle still in the
collection afterwards satisfies x + width > -100 and every cloud satisfies
x > -100 (so fully off-screen obstacles and clouds are removed the tick
they cross the margin and those collections cannot grow without bound);
particles, however, are deactivated exactly when their life reaches 0,
independently of position — the fixed pool stays bounded regardless. -/
theorem C4_offscreen_removal :
    (∀ (env : Env) (dt : ℚ) (s : GameState), s.status = GameStatus.PLAYING →
      (∀ o ∈ (update env dt s).1.obstacles, o.x + o.width > -100) ∧
      (∀ c ∈ (update env dt s).1.clouds, c.x > -100)) ∧
    (∀ (speed dt : ℚ) (p : Particle),
      (tickParticle speed dt p).active = true ↔
        (p.active = true ∧ ¬ p.life - p.decay * dt ≤ 0)) := by
  constructor
  · intro env dt s hst
    constructor
    · intro o ho
      rw [update_obstacles env dt s hst] at ho
      unfold tickObs moveObstacles at ho
      have := List.of_mem_filter ho
      simpa using this
    · intro c hc
      rw [update_clouds env dt s hst] at hc
      unfold tickClouds cloudPhase at hc
      have := List.of_mem_filter hc
      simpa using this
  · intro speed dt p
    by_cases ha : p.active = true
    · by_cases hl : p.life - p.decay * dt ≤ 0
      · simp [tickParticle, ha, hl]
      · simp [tickParticle, ha, hl]
    · have ha2 : p.active = false := by simpa using ha
      simp [tickParticle, ha2]

/-- C4 witness: the obstacle/cloud part evaluated on a concrete tick. -/
theorem C4_witness :
    (∀ o ∈ (update env0 1 playState0).1.obstacles, o.x + o.width > -100) ∧
    (∀ c ∈ (update env0 1 playState0).1.clouds, c.x > -100) :=
  C4_offscreen_removal.1 env0 1 playState0 (by with_unfolding_all decide)

/-- C5 counterexample: the reachable state right after a grounded jump
command has isJumping = true while the player is still exactly at ground
level, so isJumping is not equivalent to being strictly above ground. -/
theorem C5_counterexample :
    Reachable c5s ∧ c5s.player.isJumping = true ∧
    c5s.player.y = GROUND_Y - PLAYER_HEIGHT := by
  refine ⟨Reachable.step_jump (jump rnd0 initState) rnd0
    (Reachable.step_jump initState rnd0 Reachable.init), ?_, ?_⟩ <;>
    with_unfolding_all decide

/-- C5 amended: in every reachable state the player never sinks below
ground level (y ≤ groundY - playerHeight) and being strictly above ground
forces isJumping; the full equivalence isJumping iff strictly-above-ground
holds after every PLAYING tick, failing only transiently between a
grounded jump command and the next tick. -/
theorem C5_amended_ground_clamp :
    ∀ s : GameState, Reachable s →
      (s.player.y ≤ GROUND_Y - PLAYER_HEIGHT ∧
        (s.player.y < GROUND_Y - PLAYER_HEIGHT → s.player.isJumping = true)) ∧
      (∀ (env : Env) (dt : ℚ), s.status = GameStatus.PLAYING → 0 ≤ dt →
        ((update env dt s).1.player.isJumping = true ↔
          (update env dt s).1.player.y < GROUND_Y - PLAYER_HEIGHT)) := by
  intro s hr
  have hinv := reachable_inv hr
  constructor
  · refine ⟨hinv.py, ?_⟩
    intro hlt
    cases hj : s.player.isJumping with
    | false =>
      obtain ⟨hy, _⟩ := hinv.grounded hj
      rw [hy] at hlt
      exact absurd hlt (lt_irrefl _)
    | true => rfl
  · intro env dt hst h0
    rw [update_player env dt s hst, tickPG_fst]
    split_ifs with hgr
    · simp
    · simp only [not_le] at hgr
      constructor
      · intro _
        exact hgr
      · intro _
        show s.player.isJumping = true
        cases hj : s.player.isJumping with
        | false =>
          obtain ⟨hy, hv⟩ := hinv.grounded hj
          exfalso
          have hys : (stepPhysics dt s.player).y =
              s.player.y + (s.player.vy + GRAVITY * dt) * dt := rfl
          rw [hys, hy, hv] at hgr
          unfold GRAVITY at hgr
          nlinarith
        | true => rfl

/-- C5 witness: the amended statement evaluated on a concrete reachable
PLAYING state and tick. -/
theorem C5_witness :
    playState0.player.y ≤ GROUND_Y - PLAYER_HEIGHT ∧
    ((update env0 1 playState0).1.player.isJumping = true ↔
      (update env0 1 playState0).1.player.y < GROUND_Y - PLAYER_HEIGHT) := by
  have h := C5_amended_ground_clamp playState0 playState0_reachable
  exact ⟨h.1.1, h.2 env0 1 (by with_unfolding_all decide) (by norm_num)⟩

/-- C7: triggerJump from START or GAME_OVER performs the identical full
reset (status PLAYING, score 0, speed INITIAL_SPEED, empty obstacle and
cloud collections, no active particles); from PLAYING it makes the player
jump when at ground level (isJumping becomes true and vy the negative jump
impulse) and is a strict no-op while strictly airborne. -/
theorem C7_jump_state_machine :
    (∀ (s : GameState) (rnd : ℕ → PRand), s.status = GameStatus.START →
      jump rnd s = resetGame s) ∧
    (∀ (s : GameState) (rnd : ℕ → PRand), s.status = GameStatus.GAME_OVER →
      jump rnd s = resetGame s) ∧
    (∀ s : GameState,
      (resetGame s).status = GameStatus.PLAYING ∧ (resetGame s).score = 0 ∧
      (resetGame s).gameSpeed = INITIAL_SPEED ∧
      (resetGame s).obstacles = [] ∧ (resetGame s).clouds = [] ∧
      ∀ p ∈ (resetGame s).particles, p.active = false) ∧
    (∀ (s : GameState) (rnd : ℕ → PRand), Reachable s →
      s.status = GameStatus.PLAYING →
      s.player.y = GROUND_Y - PLAYER_HEIGHT →
      (jump rnd s).player.isJumping = true ∧
      (jump rnd s).player.vy = JUMP_FORCE) ∧
    (∀ (s : GameState) (rnd : ℕ → PRand), Reachable s →
      s.status = GameStatus.PLAYING →
      s.player.y < GROUND_Y - PLAYER_HEIGHT →
      jump rnd s = s) := by
  refine ⟨?_, ?_, ?_, ?_, ?_⟩
  · intro s rnd h
    exact jump_reset rnd s (Or.inl h)
  · intro s rnd h
    exact jump_reset rnd s (Or.inr h)
  · intro s
    refine ⟨rfl, rfl, rfl, rfl, rfl, ?_⟩
    intro p hp
    simp only [resetGame, List.mem_map] at hp
    obtain ⟨q, _, rfl⟩ := hp
    rfl
  · intro s rnd hr hst hy
    by_cases hj : s.player.isJumping = false
    · rw [jump_grounded_eq rnd s hst hj]
      exact ⟨rfl, rfl⟩
    · have hj2 : s.player.isJumping = true := by simpa using hj
      rw [jump_airborne_eq rnd s hst hj2]
      exact ⟨hj2, (reachable_inv hr).fresh hj2 hy⟩
  · intro s rnd hr hst hy
    have hinv := reachable_inv hr
    have hj2 : s.player.isJumping = true := by
      cases hj : s.player.isJumping with
      | false =>
        obtain ⟨hyy, _⟩ := hinv.grounded hj
        rw [hyy] at hy
        exact absurd hy (lt_irrefl _)
      | true => rfl
    exact jump_airborne_eq rnd s hst hj2

/-- C7 witness: the reset clause evaluated at the initial START state. -/
theorem C7_witness : jump rnd0 initState = resetGame initState :=
  C7_jump_state_machine.1 initState rnd0 rfl

/-- C8: an obstacle is spawned only when the collection is empty or the
distance from the most recently appended obstacle to the right screen edge
exceeds the random gap, which is always at least OBSTACLE_SPAWN_MIN_GAP;
consequently, in every reachable state consecutive obstacles are never
closer than OBSTACLE_SPAWN_MIN_GAP in x. -/
theorem C8_obstacle_spacing :
    (∀ gapR : ℚ, 0 ≤ gapR →
      OBSTACLE_SPAWN_MIN_GAP ≤
        OBSTACLE_SPAWN_MIN_GAP + gapR * OBSTACLE_SPAWN_MAX_GAP) ∧
    (∀ (e : ObsRand) (gapR sc : ℚ) (obs : List Obstacle) (last : Obstacle),
      obs.getLast? = some last →
      ¬ (CANVAS_WIDTH - last.x >
          OBSTACLE_SPAWN_MIN_GAP + gapR * OBSTACLE_SPAWN_MAX_GAP) →
      obstacleSpawnPhase e gapR sc obs = obs) ∧
    (∀ s : GameState, Reachable s →
      List.Chain' (fun a b => a.x + OBSTACLE_SPAWN_MIN_GAP ≤ b.x)
        s.obstacles) := by
  refine ⟨?_, ?_, ?_⟩
  · intro gapR h
    unfold OBSTACLE_SPAWN_MIN_GAP OBSTACLE_SPAWN_MAX_GAP
    nlinarith
  · intro e gapR sc obs last hlast hng
    unfold obstacleSpawnPhase
    rw [hlast]
    dsimp only
    rw [if_neg hng]
  · intro s hs
    exact List.Chain'.imp (fun a b hab => le_of_lt hab)
      (reachable_inv hs).chain

/-- C8 witness: the spacing invariant on a concrete reachable state that
contains a freshly spawned obstacle. -/
theorem C8_witness :
    List.Chain' (fun a b => a.x + OBSTACLE_SPAWN_MIN_GAP ≤ b.x)
      (update env0 1 playState0).1.obstacles :=
  C8_obstacle_spacing.2.2 (update env0 1 playState0).1
    (Reachable.step_update playState0 env0 1 playState0_reachable
      (by with_unfolding_all decide) (by norm_num) (by norm_num))

/-- C9: the sky colour at phase 0 is exactly the day colour; at phase 0.95
it lies strictly between the night and day colours componentwise; and the
five-band piecewise definition has no jump at any band boundary — each
band formula evaluated at the boundary equals the neighbouring band's
value there, including the wrap-around from phase just below 1 to 0. -/
theorem C9_sky_color_cycle :
    getSkyColor 0 = dayColor ∧
    (nightColor.r < (getSkyColor (19/20)).r ∧
      (getSkyColor (19/20)).r < dayColor.r) ∧
    (nightColor.g < (getSkyColor (19/20)).g ∧
      (getSkyColor (19/20)).g < dayColor.g) ∧
    (nightColor.b < (getSkyColor (19/20)).b ∧
      (getSkyColor (19/20)).b < dayColor.b) ∧
    (∀ t : ℚ, 0 ≤ t → t < 3/10 → getSkyColor t = dayColor) ∧
    getSkyColor (3/10) = dayColor ∧
    lerpColor dayColor sunsetColor 1 = sunsetColor ∧
    getSkyColor (4/10) = sunsetColor ∧
    lerpColor sunsetColor nightColor 1 = nightColor ∧
    getSkyColor (5/10) = nightColor ∧
    (∀ t : ℚ, 5/10 ≤ t → t < 9/10 → getSkyColor t = nightColor) ∧
    getSkyColor (9/10) = nightColor ∧
    lerpColor nightColor dayColor 1 = dayColor := by
  refine ⟨by with_unfolding_all decide, by with_unfolding_all decide,
    by with_unfolding_all decide, by with_unfolding_all decide, ?_,
    by with_unfolding_all decide, by with_unfolding_all decide,
    by with_unfolding_all decide, by with_unfolding_all decide,
    by with_unfolding_all decide, ?_,
    by with_unfolding_all decide, by with_unfolding_all decide⟩
  · intro t _ h3
    unfold getSkyColor
    rw [if_pos h3]
  · intro t h5 h9
    unfold getSkyColor
    rw [if_neg (by linarith), if_neg (by linarith), if_neg (by linarith),
      if_pos h9]

/-- C9 witness: the day-band constancy evaluated at phase 1/4. -/
theorem C9_witness : getSkyColor (1/4) = dayColor :=
  C9_sky_color_cycle.2.2.2.2.1 (1/4) (by norm_num) (by norm_num)

/-- C10: a tick of update while PLAYING that starts with the player exactly
grounded (y = groundY - playerHeight, vy = 0) ends with the player exactly
grounded again: y unchanged, vy = 0 and isJumping = false — the gravity
added during the tick never accumulates in the stored velocity. -/
theorem C10_grounded_stability :
    ∀ (env : Env) (dt : ℚ) (s : GameState), s.status = GameStatus.PLAYING →
      0 ≤ dt → s.player.y = GROUND_Y - PLAYER_HEIGHT → s.player.vy = 0 →
      (update env dt s).1.player.y = GROUND_Y - PLAYER_HEIGHT ∧
      (update env dt s).1.player.vy = 0 ∧
      (update env dt s).1.player.isJumping = false := by
  intro env dt s hst h0 hy hv
  rw [update_player env dt s hst, tickPG_fst]
  have hge : (stepPhysics dt s.player).y ≥ GROUND_Y - PLAYER_HEIGHT := by
    have hys : (stepPhysics dt s.player).y =
        s.player.y + (s.player.vy + GRAVITY * dt) * dt := rfl
    rw [hys, hy, hv]
    unfold GRAVITY
    nlinarith
  rw [if_pos hge]
  exact ⟨rfl, rfl, rfl⟩

/-- C10 witness: grounded stability evaluated on a concrete tick. -/
theorem C10_witness :
    (update env0 1 playState0).1.player.y = GROUND_Y - PLAYER_HEIGHT ∧
    (update env0 1 playState0).1.player.vy = 0 ∧
    (update env0 1 playState0).1.player.isJumping = false :=
  C10_grounded_stability env0 1 playState0 (by with_unfolding_all decide)
    (by norm_num) (by with_unfolding_all decide)
    (by with_unfolding_all decide)

end DinoQube
